import Mathlib

/-!
Verification of the scoped file-guard and site-build tasks of `tasks.py`
(metametadata/byplay).

The Python code is embedded shallowly: the filesystem is a finite map from
paths to contents, plus a set of paths on which opening for writing fails
(modelling OS-level permission errors), plus a trace of performed actions.
Each filesystem primitive is a state transformer that may also produce an
error value; Python `try ... finally` (which is what
`contextlib.contextmanager` plus `with` compiles the guards into) is the
explicit `tryFinally` combinator: the `finally` part always runs, and an
error raised by it masks the error of the body, as in Python.
-/

namespace Byplay

abbrev Path := String

/-- Errors raised by the modelled OS operations and by external commands. -/
inductive Err where
  | copySrcMissing (src : Path)
  | copyDstDenied (dst : Path)
  | createDenied (p : Path)
  | removeMissing (p : Path)
  | cmdFailed (cmd : String)
deriving DecidableEq, Repr

/-- Observable actions, recorded in the order they are performed. -/
inductive Ev where
  | created (p : Path)
  | copied (src dst : Path)
  | removed (p : Path)
  | ran (cmd : String)
  | mark (n : Nat)
deriving DecidableEq, Repr

/-- First-match lookup in an association list of files. -/
def getFile : List (Path × String) → Path → Option String
  | [], _ => none
  | (q, d) :: rest, p => if q = p then some d else getFile rest p

/-- Overwrite the binding of `p` (or append it) in an association list. -/
def setFile : List (Path × String) → Path → String → List (Path × String)
  | [], p, c => [(p, c)]
  | (q, d) :: rest, p, c => if q = p then (p, c) :: rest else (q, d) :: setFile rest p c

/-- Delete every binding of `p` from an association list. -/
def delFile : List (Path × String) → Path → List (Path × String)
  | [], _ => []
  | (q, d) :: rest, p => if q = p then delFile rest p else (q, d) :: delFile rest p

/-- Filesystem state: files on disk, write-denied paths, action trace. -/
structure St where
  files : List (Path × String)
  locked : List Path
  trace : List Ev
deriving DecidableEq, Repr

def St.read (st : St) (p : Path) : Option String :=
  getFile st.files p

def St.log (st : St) (e : Ev) : St :=
  { st with trace := st.trace ++ [e] }

/-- A stateful computation: it returns the state reached (also on error)
and `some e` when it raises. -/
abbrev M := St → St × Option Err

/-- `open(p, 'w').close()`: create `p` empty, silently truncating a
pre-existing file; fails when writing to `p` is denied. -/
def createEmpty (p : Path) : M := fun st =>
  if p ∈ st.locked then (st, some (.createDenied p))
  else (({ st with files := setFile st.files p "" }).log (.created p), none)

/-- `shutil.copy2(src, dst)`: read `src` in full and write it to `dst`;
fails when `src` is missing or `dst` is write-denied. -/
def copy2 (src dst : Path) : M := fun st =>
  match st.read src with
  | none => (st, some (.copySrcMissing src))
  | some c =>
    if dst ∈ st.locked then (st, some (.copyDstDenied dst))
    else (({ st with files := setFile st.files dst c }).log (.copied src dst), none)

/-- `os.remove(p)`: delete `p`; fails when `p` does not exist. -/
def osRemove (p : Path) : M := fun st =>
  match st.read p with
  | none => (st, some (.removeMissing p))
  | some _ => (({ st with files := delFile st.files p }).log (.removed p), none)

/-- Run `a`; if it raises, stop, otherwise continue with `b`. -/
def seqM (a b : M) : M := fun st =>
  match a st with
  | (st1, none) => b st1
  | (st1, some e) => (st1, some e)

/-- The error that leaves a Python `try/finally`: an error raised by the
`finally` block masks the body's error. -/
def mergeErr : Option Err → Option Err → Option Err
  | some e, _ => some e
  | none, e1 => e1

/-- Python `try: body finally: fin`: `fin` always runs on the state the
body reached, and its error (if any) masks the body's error. -/
def tryFinally (body fin : M) : M := fun st =>
  let r := body st
  let r2 := fin r.1
  (r2.1, mergeErr r2.2 r.2)

/-- `invoke.run(cmd, echo=True)`: attempt the external command (always
recorded in the trace) and raise when its exit status, given by the
oracle `ok`, is non-zero. -/
def run (ok : String → Bool) (cmd : String) : M := fun st =>
  let st1 := st.log (.ran cmd)
  if ok cmd then (st1, none) else (st1, some (.cmdFailed cmd))

/-- `temp_file(filepath)` of tasks.py used as `with temp_file(fp): region`:
`try: open(fp,'w').close(); region finally: os.remove(fp)`. Note that the
creation is inside the `try`, so the removal is attempted even when the
creation failed. -/
def temp_file (filepath : Path) (region : M) : M :=
  tryFinally (seqM (createEmpty filepath) region) (osRemove filepath)

/-- `backed_up_file(filepath, backup_path)` of tasks.py used as
`with backed_up_file(fp, bp): region`: inside `temp_file(bp)`,
`try: shutil.copy2(fp, bp); region finally: shutil.copy2(bp, fp)`.
Note that the entry copy is inside the `try`, so the restore copy is
attempted even when the entry copy failed. -/
def backed_up_file (filepath backup_path : Path) (region : M) : M :=
  temp_file backup_path
    (tryFinally (seqM (copy2 filepath backup_path) region)
      (copy2 backup_path filepath))

def lein (ok : String → Bool) (args : String) : M :=
  run ok ("lein " ++ args)

/-- `os.path.join(a, b)` for the relative POSIX components used here. -/
def ospJoin (a b : Path) : Path := a ++ "/" ++ b

/-- `index_path = os.path.join("docs", "index.md")` of the `mkdocs` task. -/
def index_path : Path := ospJoin "docs" "index.md"

/-- `index_backup_path = "index.md_original"` of the `mkdocs` task. -/
def index_backup_path : Path := "index.md_original"

/-- The `mkdocs` task ("build site pages"): inside
`backed_up_file(index_path, index_backup_path)`, copy `README.md` over the
index page and run `mkdocs build` (with ` --clean` appended when `clean`).
`ok` gives the exit status of external commands. -/
def mkdocs (ok : String → Bool) (clean : Bool) : M :=
  backed_up_file index_path index_backup_path
    (seqM (copy2 "README.md" index_path)
      (run ok ("mkdocs build" ++ (if clean then " --clean" else ""))))

/-- The `api` task ("build API reference"): `lein("codox")`. -/
def api (ok : String → Bool) : M :=
  lein ok "codox"

/-- The `site` task ("build full site"), declared as
`@task(post=[call(mkdocs, clean=True), call(api)])` with an empty body.
Modelled from the spec: the task runner executes the declared post tasks
in order after the empty body, so `site` is `mkdocs(clean=True)` followed
by `api`. -/
def site (ok : String → Bool) : M :=
  seqM (mkdocs ok true) (api ok)

/-- `os.path.dirname`: the part of a relative POSIX path before its last
separator, `""` when there is none. -/
def dirname (p : Path) : Path :=
  match (p.data.reverse.dropWhile (fun c => c ≠ '/')) with
  | [] => ""
  | _ :: rest => String.mk rest.reverse

/-! ### Concrete regions and states used to instantiate the theorems -/

/-- A guarded region that only records that it ran. -/
def regionMark (n : Nat) : M := fun s => (s.log (.mark n), none)

/-- A guarded region that records that it ran and then raises. -/
def regionRaise (n : Nat) : M := fun s => (s.log (.mark n), some (.cmdFailed "boom"))

/-- A guarded region that overwrites the file `"f"` and then raises. -/
def regionClobber : M := fun s =>
  (⟨setFile s.files "f" "junk", s.locked, s.trace ++ [Ev.mark 1]⟩,
   some (Err.cmdFailed "boom"))

/-- An empty, fully writable filesystem. -/
def st_empty : St := ⟨[], [], []⟩

/-- A filesystem holding only `"f"` with content `"hello"`. -/
def st_f_hello : St := ⟨[("f", "hello")], [], []⟩

/-- A filesystem where `"t"` is absent and write-denied. -/
def st_locked_t : St := ⟨[], ["t"], []⟩

/-- A filesystem holding only `"t"` with content `"secret"`. -/
def st_t_secret : St := ⟨[("t", "secret")], [], []⟩

/-- The documentation scenario: index page `"old"`, README `"new"`. -/
def st_docs : St := ⟨[("docs/index.md", "old"), ("README.md", "new")], [], []⟩

/-! ### Basic lemmas about the file map and the primitives -/

theorem getFile_setFile (fs : List (Path × String)) (p q : Path) (c : String) :
    getFile (setFile fs p c) q = if q = p then some c else getFile fs q := by
  induction fs with
  | nil =>
    by_cases h : q = p
    · simp [setFile, getFile, h]
    · simp [setFile, getFile, h, Ne.symm h]
  | cons hd tl ih =>
    obtain ⟨a, b⟩ := hd
    by_cases hap : a = p
    · subst hap
      by_cases hqa : q = a
      · subst hqa
        simp [setFile, getFile]
      · simp [setFile, getFile, hqa, Ne.symm hqa]
    · by_cases hqa : a = q
      · subst hqa
        simp [setFile, getFile, hap, fun h : a = p => hap h]
      · simp [setFile, getFile, hap, hqa, ih]

theorem getFile_delFile (fs : List (Path × String)) (p q : Path) :
    getFile (delFile fs p) q = if q = p then none else getFile fs q := by
  induction fs with
  | nil =>
    by_cases h : q = p
    · simp [delFile, getFile, h]
    · simp [delFile, getFile, h]
  | cons hd tl ih =>
    obtain ⟨a, b⟩ := hd
    by_cases hap : a = p
    · subst hap
      by_cases hqa : q = a
      · subst hqa
        simp [delFile, getFile, ih]
      · simp [delFile, getFile, hqa, Ne.symm hqa, ih]
    · by_cases hqa : a = q
      · subst hqa
        simp [delFile, getFile, hap, fun h : a = p => hap h]
      · simp [delFile, getFile, hap, hqa, ih]

theorem read_mk (fs : List (Path × String)) (lk : List Path) (tr : List Ev) (p : Path) :
    St.read ⟨fs, lk, tr⟩ p = getFile fs p := rfl

theorem createEmpty_ok (p : Path) (st : St) (h : p ∉ st.locked) :
    createEmpty p st =
      (⟨setFile st.files p "", st.locked, st.trace ++ [.created p]⟩, none) := by
  simp [createEmpty, h, St.log]

theorem createEmpty_denied (p : Path) (st : St) (h : p ∈ st.locked) :
    createEmpty p st = (st, some (.createDenied p)) := by
  simp [createEmpty, h]

theorem copy2_ok (src dst : Path) (c : String) (st : St)
    (h1 : st.read src = some c) (h2 : dst ∉ st.locked) :
    copy2 src dst st =
      (⟨setFile st.files dst c, st.locked, st.trace ++ [.copied src dst]⟩, none) := by
  simp [copy2, h1, h2, St.log]

theorem copy2_noSrc (src dst : Path) (st : St) (h : st.read src = none) :
    copy2 src dst st = (st, some (.copySrcMissing src)) := by
  simp [copy2, h]

theorem osRemove_ok (p : Path) (c : String) (st : St) (h : st.read p = some c) :
    osRemove p st =
      (⟨delFile st.files p, st.locked, st.trace ++ [.removed p]⟩, none) := by
  simp [osRemove, h, St.log]

theorem osRemove_missing (p : Path) (st : St) (h : st.read p = none) :
    osRemove p st = (st, some (.removeMissing p)) := by
  simp [osRemove, h]

theorem seqM_ok (a b : M) (st st1 : St) (h : a st = (st1, none)) :
    seqM a b st = b st1 := by
  simp [seqM, h]

theorem seqM_err (a b : M) (st st1 : St) (e : Err) (h : a st = (st1, some e)) :
    seqM a b st = (st1, some e) := by
  simp [seqM, h]

theorem tryFinally_eq (body fin : M) (st st1 st2 : St) (e1 e2 : Option Err)
    (hb : body st = (st1, e1)) (hf : fin st1 = (st2, e2)) :
    tryFinally body fin st = (st2, mergeErr e2 e1) := by
  simp [tryFinally, hb, hf]

/-- Whatever the state, after attempting `os.remove(p)` the path `p` is
not on disk: either it was deleted or it was already absent. -/
theorem osRemove_read_none (p : Path) (s : St) :
    (osRemove p s).1.read p = none := by
  rcases h : s.read p with _ | c
  · rw [osRemove_missing p s h]
    exact h
  · rw [osRemove_ok p c s h]
    simp [St.read, getFile_delFile]

/-- After the `finally` of `temp_file p region`, `p` is never on disk:
`os.remove` either deleted it or failed because it was already absent. -/
theorem temp_file_read_none (p : Path) (region : M) (st : St) :
    ((temp_file p region) st).1.read p = none := by
  simp only [temp_file, tryFinally]
  exact osRemove_read_none p _

theorem run_eq (ok : String → Bool) (cmd : String) (st : St) :
    run ok cmd st =
      (⟨st.files, st.locked, st.trace ++ [.ran cmd]⟩,
       if ok cmd then none else some (.cmdFailed cmd)) := by
  by_cases h : ok cmd <;> simp [run, St.log, h]

/-- Master computation of one `mkdocs` run: from a state where the index
page reads `c`, `README.md` reads `r`, and both the index page and the
backup location are writable, the run restores the index page, leaves
`README.md` alone, removes the backup file, performs exactly the six
recorded actions, and raises exactly when the build command fails. -/
theorem mkdocs_run (ok : String → Bool) (clean : Bool) (st : St) (c r : String)
    (h1 : st.read index_path = some c)
    (h2 : st.read "README.md" = some r)
    (h3 : index_path ∉ st.locked)
    (h4 : index_backup_path ∉ st.locked) :
    (mkdocs ok clean st).1.read index_path = some c ∧
    (mkdocs ok clean st).1.read "README.md" = some r ∧
    (mkdocs ok clean st).1.read index_backup_path = none ∧
    (mkdocs ok clean st).1.locked = st.locked ∧
    (mkdocs ok clean st).1.trace = st.trace ++
      [Ev.created index_backup_path, Ev.copied index_path index_backup_path,
       Ev.copied "README.md" index_path,
       Ev.ran ("mkdocs build" ++ (if clean then " --clean" else "")),
       Ev.copied index_backup_path index_path, Ev.removed index_backup_path] ∧
    (mkdocs ok clean st).2 =
      (if ok ("mkdocs build" ++ (if clean then " --clean" else "")) then none
       else some (Err.cmdFailed ("mkdocs build" ++ (if clean then " --clean" else "")))) := by
  have hab : ¬ (index_path = index_backup_path) := by decide
  have hba : ¬ (index_backup_path = index_path) := by decide
  have hrb : ¬ (("README.md" : Path) = index_backup_path) := by decide
  have hri : ¬ (("README.md" : Path) = index_path) := by decide
  have e1 : createEmpty index_backup_path st =
      (⟨setFile st.files index_backup_path "", st.locked,
        st.trace ++ [Ev.created index_backup_path]⟩, none) :=
    createEmpty_ok index_backup_path st h4
  have e2 : copy2 index_path index_backup_path
      ⟨setFile st.files index_backup_path "", st.locked,
       st.trace ++ [Ev.created index_backup_path]⟩ =
      (⟨setFile (setFile st.files index_backup_path "") index_backup_path c, st.locked,
        (st.trace ++ [Ev.created index_backup_path]) ++
          [Ev.copied index_path index_backup_path]⟩, none) := by
    refine copy2_ok _ _ _ _ ?_ h4
    rw [read_mk, getFile_setFile, if_neg hab]
    exact h1
  have e3 : copy2 "README.md" index_path
      ⟨setFile (setFile st.files index_backup_path "") index_backup_path c, st.locked,
       (st.trace ++ [Ev.created index_backup_path]) ++
         [Ev.copied index_path index_backup_path]⟩ =
      (⟨setFile (setFile (setFile st.files index_backup_path "") index_backup_path c)
          index_path r, st.locked,
        ((st.trace ++ [Ev.created index_backup_path]) ++
          [Ev.copied index_path index_backup_path]) ++
          [Ev.copied "README.md" index_path]⟩, none) := by
    refine copy2_ok _ _ _ _ ?_ h3
    rw [read_mk, getFile_setFile, if_neg hrb, getFile_setFile, if_neg hrb]
    exact h2
  have e4 : run ok ("mkdocs build" ++ (if clean then " --clean" else ""))
      ⟨setFile (setFile (setFile st.files index_backup_path "") index_backup_path c)
         index_path r, st.locked,
       ((st.trace ++ [Ev.created index_backup_path]) ++
         [Ev.copied index_path index_backup_path]) ++
         [Ev.copied "README.md" index_path]⟩ =
      (⟨setFile (setFile (setFile st.files index_backup_path "") index_backup_path c)
          index_path r, st.locked,
        (((st.trace ++ [Ev.created index_backup_path]) ++
          [Ev.copied index_path index_backup_path]) ++
          [Ev.copied "README.md" index_path]) ++
          [Ev.ran ("mkdocs build" ++ (if clean then " --clean" else ""))]⟩,
       if ok ("mkdocs build" ++ (if clean then " --clean" else "")) then none
       else some (Err.cmdFailed ("mkdocs build" ++ (if clean then " --clean" else "")))) :=
    run_eq ok _ _
  have hreg : seqM (copy2 "README.md" index_path)
      (run ok ("mkdocs build" ++ (if clean then " --clean" else "")))
      ⟨setFile (setFile st.files index_backup_path "") index_backup_path c, st.locked,
       (st.trace ++ [Ev.created index_backup_path]) ++
         [Ev.copied index_path index_backup_path]⟩ =
      (⟨setFile (setFile (setFile st.files index_backup_path "") index_backup_path c)
          index_path r, st.locked,
        (((st.trace ++ [Ev.created index_backup_path]) ++
          [Ev.copied index_path index_backup_path]) ++
          [Ev.copied "README.md" index_path]) ++
          [Ev.ran ("mkdocs build" ++ (if clean then " --clean" else ""))]⟩,
       if ok ("mkdocs build" ++ (if clean then " --clean" else "")) then none
       else some (Err.cmdFailed ("mkdocs build" ++ (if clean then " --clean" else "")))) :=
    (seqM_ok _ _ _ _ e3).trans e4
  have hib : seqM (copy2 index_path index_backup_path)
      (seqM (copy2 "README.md" index_path)
        (run ok ("mkdocs build" ++ (if clean then " --clean" else ""))))
      ⟨setFile st.files index_backup_path "", st.locked,
       st.trace ++ [Ev.created index_backup_path]⟩ =
      (⟨setFile (setFile (setFile st.files index_backup_path "") index_backup_path c)
          index_path r, st.locked,
        (((st.trace ++ [Ev.created index_backup_path]) ++
          [Ev.copied index_path index_backup_path]) ++
          [Ev.copied "README.md" index_path]) ++
          [Ev.ran ("mkdocs build" ++ (if clean then " --clean" else ""))]⟩,
       if ok ("mkdocs build" ++ (if clean then " --clean" else "")) then none
       else some (Err.cmdFailed ("mkdocs build" ++ (if clean then " --clean" else "")))) :=
    (seqM_ok _ _ _ _ e2).trans hreg
  have e5 : copy2 index_backup_path index_path
      ⟨setFile (setFile (setFile st.files index_backup_path "") index_backup_path c)
         index_path r, st.locked,
       (((st.trace ++ [Ev.created index_backup_path]) ++
         [Ev.copied index_path index_backup_path]) ++
         [Ev.copied "README.md" index_path]) ++
         [Ev.ran ("mkdocs build" ++ (if clean then " --clean" else ""))]⟩ =
      (⟨setFile (setFile (setFile (setFile st.files index_backup_path "")
          index_backup_path c) index_path r) index_path c, st.locked,
        ((((st.trace ++ [Ev.created index_backup_path]) ++
          [Ev.copied index_path index_backup_path]) ++
          [Ev.copied "README.md" index_path]) ++
          [Ev.ran ("mkdocs build" ++ (if clean then " --clean" else ""))]) ++
          [Ev.copied index_backup_path index_path]⟩, none) := by
    refine copy2_ok _ _ _ _ ?_ h3
    rw [read_mk, getFile_setFile, if_neg hba, getFile_setFile, if_pos rfl]
  have hinner : tryFinally
      (seqM (copy2 index_path index_backup_path)
        (seqM (copy2 "README.md" index_path)
          (run ok ("mkdocs build" ++ (if clean then " --clean" else "")))))
      (copy2 index_backup_path index_path)
      ⟨setFile st.files index_backup_path "", st.locked,
       st.trace ++ [Ev.created index_backup_path]⟩ =
      (⟨setFile (setFile (setFile (setFile st.files index_backup_path "")
          index_backup_path c) index_path r) index_path c, st.locked,
        ((((st.trace ++ [Ev.created index_backup_path]) ++
          [Ev.copied index_path index_backup_path]) ++
          [Ev.copied "README.md" index_path]) ++
          [Ev.ran ("mkdocs build" ++ (if clean then " --clean" else ""))]) ++
          [Ev.copied index_backup_path index_path]⟩,
       if ok ("mkdocs build" ++ (if clean then " --clean" else "")) then none
       else some (Err.cmdFailed ("mkdocs build" ++ (if clean then " --clean" else "")))) :=
    tryFinally_eq _ _ _ _ _ _ _ hib e5
  have hob : seqM (createEmpty index_backup_path)
      (tryFinally
        (seqM (copy2 index_path index_backup_path)
          (seqM (copy2 "README.md" index_path)
            (run ok ("mkdocs build" ++ (if clean then " --clean" else "")))))
        (copy2 index_backup_path index_path)) st =
      (⟨setFile (setFile (setFile (setFile st.files index_backup_path "")
          index_backup_path c) index_path r) index_path c, st.locked,
        ((((st.trace ++ [Ev.created index_backup_path]) ++
          [Ev.copied index_path index_backup_path]) ++
          [Ev.copied "README.md" index_path]) ++
          [Ev.ran ("mkdocs build" ++ (if clean then " --clean" else ""))]) ++
          [Ev.copied index_backup_path index_path]⟩,
       if ok ("mkdocs build" ++ (if clean then " --clean" else "")) then none
       else some (Err.cmdFailed ("mkdocs build" ++ (if clean then " --clean" else "")))) :=
    (seqM_ok _ _ _ _ e1).trans hinner
  have e6 : osRemove index_backup_path
      ⟨setFile (setFile (setFile (setFile st.files index_backup_path "")
         index_backup_path c) index_path r) index_path c, st.locked,
       ((((st.trace ++ [Ev.created index_backup_path]) ++
         [Ev.copied index_path index_backup_path]) ++
         [Ev.copied "README.md" index_path]) ++
         [Ev.ran ("mkdocs build" ++ (if clean then " --clean" else ""))]) ++
         [Ev.copied index_backup_path index_path]⟩ =
      (⟨delFile (setFile (setFile (setFile (setFile st.files index_backup_path "")
          index_backup_path c) index_path r) index_path c) index_backup_path, st.locked,
        (((((st.trace ++ [Ev.created index_backup_path]) ++
          [Ev.copied index_path index_backup_path]) ++
          [Ev.copied "README.md" index_path]) ++
          [Ev.ran ("mkdocs build" ++ (if clean then " --clean" else ""))]) ++
          [Ev.copied index_backup_path index_path]) ++
          [Ev.removed index_backup_path]⟩, none) := by
    refine osRemove_ok _ c _ ?_
    rw [read_mk, getFile_setFile, if_neg hba, getFile_setFile, if_neg hba,
      getFile_setFile, if_pos rfl]
  have hmain : mkdocs ok clean st =
      (⟨delFile (setFile (setFile (setFile (setFile st.files index_backup_path "")
          index_backup_path c) index_path r) index_path c) index_backup_path, st.locked,
        (((((st.trace ++ [Ev.created index_backup_path]) ++
          [Ev.copied index_path index_backup_path]) ++
          [Ev.copied "README.md" index_path]) ++
          [Ev.ran ("mkdocs build" ++ (if clean then " --clean" else ""))]) ++
          [Ev.copied index_backup_path index_path]) ++
          [Ev.removed index_backup_path]⟩,
       if ok ("mkdocs build" ++ (if clean then " --clean" else "")) then none
       else some (Err.cmdFailed ("mkdocs build" ++ (if clean then " --clean" else "")))) :=
    tryFinally_eq _ _ _ _ _ _ _ hob e6
  rw [hmain]
  refine ⟨?_, ?_, ?_, rfl, ?_, rfl⟩
  · rw [read_mk, getFile_delFile, if_neg hab, getFile_setFile, if_pos rfl]
  · rw [read_mk, getFile_delFile, if_neg hrb, getFile_setFile, if_neg hri,
      getFile_setFile, if_neg hri, getFile_setFile, if_neg hrb,
      getFile_setFile, if_neg hrb]
    exact h2
  · rw [read_mk, getFile_delFile, if_pos rfl]
  · simp

/-- Master computation of one `backed_up_file` run around an arbitrary
region: provided the protected file is readable, both paths are writable,
and the region neither touches the backup file nor the permission set, the
guard restores the protected file, removes the backup file, propagates
exactly the region's error, and ends its trace with the restore copy
followed by the backup removal. -/
theorem backed_up_file_run (fp bp : Path) (c : String) (region : M) (st : St)
    (h1 : st.read fp = some c) (h2 : bp ∉ st.locked) (h3 : fp ∉ st.locked)
    (hne : ¬ (bp = fp))
    (hA : ∀ s, (region s).1.read bp = s.read bp)
    (hB : ∀ s, (region s).1.locked = s.locked) :
    ((backed_up_file fp bp region) st).1.read fp = some c ∧
    ((backed_up_file fp bp region) st).1.read bp = none ∧
    ((backed_up_file fp bp region) st).2 =
      (region ⟨setFile (setFile st.files bp "") bp c, st.locked,
        (st.trace ++ [Ev.created bp]) ++ [Ev.copied fp bp]⟩).2 ∧
    ((backed_up_file fp bp region) st).1.trace =
      ((region ⟨setFile (setFile st.files bp "") bp c, st.locked,
        (st.trace ++ [Ev.created bp]) ++ [Ev.copied fp bp]⟩).1.trace ++
        [Ev.copied bp fp]) ++ [Ev.removed bp] := by
  have hfb : ¬ (fp = bp) := fun h => hne h.symm
  have e1 : createEmpty bp st = (⟨setFile st.files bp "", st.locked,
      st.trace ++ [Ev.created bp]⟩, none) := createEmpty_ok bp st h2
  have e2 : copy2 fp bp ⟨setFile st.files bp "", st.locked,
      st.trace ++ [Ev.created bp]⟩ =
      (⟨setFile (setFile st.files bp "") bp c, st.locked,
        (st.trace ++ [Ev.created bp]) ++ [Ev.copied fp bp]⟩, none) := by
    refine copy2_ok _ _ _ _ ?_ h2
    rw [read_mk, getFile_setFile, if_neg hfb]
    exact h1
  rcases hr : region ⟨setFile (setFile st.files bp "") bp c, st.locked,
      (st.trace ++ [Ev.created bp]) ++ [Ev.copied fp bp]⟩ with ⟨S3, e⟩
  have hS3bp : S3.read bp = some c := by
    have h := hA ⟨setFile (setFile st.files bp "") bp c, st.locked,
      (st.trace ++ [Ev.created bp]) ++ [Ev.copied fp bp]⟩
    rw [hr] at h
    have h2c : S3.read bp = getFile (setFile (setFile st.files bp "") bp c) bp := h
    rw [getFile_setFile, if_pos rfl] at h2c
    exact h2c
  have hS3lk : fp ∉ S3.locked := by
    have h := hB ⟨setFile (setFile st.files bp "") bp c, st.locked,
      (st.trace ++ [Ev.created bp]) ++ [Ev.copied fp bp]⟩
    rw [hr] at h
    have h2l : S3.locked = st.locked := h
    rw [h2l]
    exact h3
  have e5 : copy2 bp fp S3 = (⟨setFile S3.files fp c, S3.locked,
      S3.trace ++ [Ev.copied bp fp]⟩, none) := copy2_ok bp fp c S3 hS3bp hS3lk
  have hib : seqM (copy2 fp bp) region ⟨setFile st.files bp "", st.locked,
      st.trace ++ [Ev.created bp]⟩ = (S3, e) := (seqM_ok _ _ _ _ e2).trans hr
  have hinner : tryFinally (seqM (copy2 fp bp) region) (copy2 bp fp)
      ⟨setFile st.files bp "", st.locked, st.trace ++ [Ev.created bp]⟩ =
      (⟨setFile S3.files fp c, S3.locked, S3.trace ++ [Ev.copied bp fp]⟩, e) :=
    tryFinally_eq _ _ _ _ _ _ _ hib e5
  have hob : seqM (createEmpty bp)
      (tryFinally (seqM (copy2 fp bp) region) (copy2 bp fp)) st =
      (⟨setFile S3.files fp c, S3.locked, S3.trace ++ [Ev.copied bp fp]⟩, e) :=
    (seqM_ok _ _ _ _ e1).trans hinner
  have e6 : osRemove bp
      ⟨setFile S3.files fp c, S3.locked, S3.trace ++ [Ev.copied bp fp]⟩ =
      (⟨delFile (setFile S3.files fp c) bp, S3.locked,
        (S3.trace ++ [Ev.copied bp fp]) ++ [Ev.removed bp]⟩, none) := by
    refine osRemove_ok _ c _ ?_
    rw [read_mk, getFile_setFile, if_neg hne]
    exact hS3bp
  have hmain : backed_up_file fp bp region st =
      (⟨delFile (setFile S3.files fp c) bp, S3.locked,
        (S3.trace ++ [Ev.copied bp fp]) ++ [Ev.removed bp]⟩, e) :=
    tryFinally_eq _ _ _ _ _ _ _ hob e6
  rw [hmain]
  refine ⟨?_, ?_, rfl, rfl⟩
  · rw [read_mk, getFile_delFile, if_neg hfb, getFile_setFile, if_pos rfl]
  · rw [read_mk, getFile_delFile, if_pos rfl]

/-! ### The claims -/

/-- C1: for a file `fp` whose content is `c` at entry to `backed_up_file`,
when the guard's own create/copy/delete operations succeed (both paths
writable, `fp` readable, the region leaving the backup file and the
permission set alone), the content of `fp` on disk after the guard exits
equals `c`, whether the region returned normally or raised (`region` is
arbitrary, so its error component is arbitrary); the restore step always
runs, so even a region that deleted or rewrote `fp` is undone. -/
theorem C1_backed_up_file_restores (fp bp : Path) (c : String) (region : M) (st : St)
    (h1 : st.read fp = some c) (h2 : bp ∉ st.locked) (h3 : fp ∉ st.locked)
    (hne : ¬ (bp = fp))
    (hA : ∀ s, (region s).1.read bp = s.read bp)
    (hB : ∀ s, (region s).1.locked = s.locked) :
    ((backed_up_file fp bp region) st).1.read fp = some c :=
  (backed_up_file_run fp bp c region st h1 h2 h3 hne hA hB).1

/-- Witness for C1: the region overwrites `"f"` with `"junk"` and raises,
yet `"f"` reads `"hello"` again after the guard exits. -/
theorem C1_witness :
    ((backed_up_file "f" "b" regionClobber) st_f_hello).1.read "f" = some "hello" :=
  C1_backed_up_file_restores "f" "b" "hello" regionClobber st_f_hello
    (by decide) (by decide) (by decide) (by decide)
    (fun s => by simp [regionClobber, St.read, getFile_setFile])
    (fun s => rfl)

/-- C2: evaluation of `backed_up_file` at an input where the entry copy
fails (`"f"` does not exist, so `shutil.copy2("f", "b")` raises): the
entry-copy error does propagate and the backup file is removed, but the
exit restore IS attempted — the `finally` block copies the just-created
empty backup onto `"f"`, materialising `"f"` with empty content (the trace
contains the restore copy, the region marker never ran). This contradicts
the claim (and the docstring "File will be returned to its initial state
on context exit"): the code runs the restore for a region that never ran. -/
theorem C2_entry_copy_failure_behavior :
    backed_up_file "f" "b" (regionMark 0) st_empty =
      (⟨[("f", "")], [], [Ev.created "b", Ev.copied "b" "f", Ev.removed "b"]⟩,
       some (Err.copySrcMissing "f")) := by decide

/-- C4: for a path `p` absent and writable at entry to `temp_file`, the
file exists (empty) in the state handed to the region, and after the guard
exits — the region being arbitrary, so normal return and raising are both
covered — `p` does not exist on disk. -/
theorem C4_temp_file_roundtrip (p : Path) (region : M) (st : St)
    (h0 : st.read p = none) (h1 : p ∉ st.locked) :
    ((createEmpty p) st).1.read p = some "" ∧
    ((temp_file p region) st).1.read p = none := by
  constructor
  · rw [createEmpty_ok p st h1]
    simp [St.read, getFile_setFile]
  · exact temp_file_read_none p region st

/-- Witness for C4 at the path `"t"` on the empty filesystem, with a
region that records that it ran. -/
theorem C4_witness :
    ((createEmpty "t") st_empty).1.read "t" = some "" ∧
    ((temp_file "t" (regionMark 0)) st_empty).1.read "t" = none :=
  C4_temp_file_roundtrip "t" (regionMark 0) st_empty (by decide) (by decide)

/-- C5: on every exit of `backed_up_file` — the region's error component
is arbitrary, so in particular when the region raised — the guard's trace
extends the entry trace with the region's actions, then the restore copy
`backup → filepath`, then the deletion of the backup file, in exactly that
order: both actions are performed, restore strictly first. -/
theorem C5_restore_before_delete (fp bp : Path) (c : String) (region : M) (st : St)
    (h1 : st.read fp = some c) (h2 : bp ∉ st.locked) (h3 : fp ∉ st.locked)
    (hne : ¬ (bp = fp))
    (hA : ∀ s, (region s).1.read bp = s.read bp)
    (hB : ∀ s, (region s).1.locked = s.locked)
    (hC : ∀ s, ∃ tr, (region s).1.trace = s.trace ++ tr) :
    ∃ tr0, ((backed_up_file fp bp region) st).1.trace =
      (((st.trace ++ [Ev.created bp, Ev.copied fp bp]) ++ tr0) ++
        [Ev.copied bp fp]) ++ [Ev.removed bp] := by
  obtain ⟨tr0, htr⟩ := hC ⟨setFile (setFile st.files bp "") bp c, st.locked,
    (st.trace ++ [Ev.created bp]) ++ [Ev.copied fp bp]⟩
  refine ⟨tr0, ?_⟩
  have h4 := (backed_up_file_run fp bp c region st h1 h2 h3 hne hA hB).2.2.2
  rw [h4, htr]
  simp

/-- Witness for C5: with a region that records a marker and raises, the
trace still ends with the restore copy followed by the backup removal. -/
theorem C5_witness :
    ∃ tr0, ((backed_up_file "f" "b" (regionRaise 2)) st_f_hello).1.trace =
      (((st_f_hello.trace ++ [Ev.created "b", Ev.copied "f" "b"]) ++ tr0) ++
        [Ev.copied "b" "f"]) ++ [Ev.removed "b"] :=
  C5_restore_before_delete "f" "b" "hello" (regionRaise 2) st_f_hello
    (by decide) (by decide) (by decide) (by decide)
    (fun s => rfl) (fun s => rfl) (fun s => ⟨[Ev.mark 2], rfl⟩)

/-- C6 counterexample: at a write-denied absent path `"t"`, the creation
fails (first conjunct), the region indeed never runs (the final trace is
empty, so the marker region left no mark), but what propagates to the
caller is NOT the creation error: it is the cleanup's removal error,
raised because the file was never created — `os.remove` in the `finally`
masks the creation error. -/
theorem C6_counterexample :
    ((createEmpty "t") st_locked_t).2 = some (Err.createDenied "t") ∧
    ((temp_file "t" (regionMark 0)) st_locked_t).2 = some (Err.removeMissing "t") ∧
    Err.removeMissing "t" ≠ Err.createDenied "t" ∧
    ((temp_file "t" (regionMark 0)) st_locked_t).1.trace = [] := by decide

/-- C6 (amended): when creating the empty file fails and the path is
absent, the guarded region never runs (the guard's result is independent
of the region) and an error propagates to the caller — but it is the
cleanup's file-removal error, which masks the creation error, and the
state is left unchanged. -/
theorem C6_creation_failure_amended (p : Path) (st : St) (region : M)
    (hp : p ∈ st.locked) (h0 : st.read p = none) :
    (∀ r1 r2 : M, (temp_file p r1) st = (temp_file p r2) st) ∧
    (temp_file p region) st = (st, some (Err.removeMissing p)) := by
  have key : ∀ r : M, (temp_file p r) st = (st, some (Err.removeMissing p)) := by
    intro r
    have e1 : createEmpty p st = (st, some (Err.createDenied p)) :=
      createEmpty_denied p st hp
    have hb : seqM (createEmpty p) r st = (st, some (Err.createDenied p)) :=
      seqM_err _ _ _ _ _ e1
    have e2 : osRemove p st = (st, some (Err.removeMissing p)) :=
      osRemove_missing p st h0
    exact tryFinally_eq _ _ _ _ _ _ _ hb e2
  exact ⟨fun r1 r2 => (key r1).trans (key r2).symm, key region⟩

/-- Witness for the amended C6 at the write-denied absent path `"t"`. -/
theorem C6_amended_witness :
    (temp_file "t" (regionMark 7)) st_locked_t =
      (st_locked_t, some (Err.removeMissing "t")) :=
  (C6_creation_failure_amended "t" st_locked_t (regionMark 7)
    (by decide) (by decide)).2

/-- C10: when a file already exists at the path given to `temp_file`, the
guard raises no error for this condition: entry creation succeeds and
silently truncates the file to empty (the region starts with the file
reading `""`), and on exit the file is deleted, so the pre-existing
content `c` is gone and nothing exists at the path after the guard. -/
theorem C10_temp_file_truncates_preexisting (p : Path) (c : String) (region : M) (st : St)
    (h0 : st.read p = some c) (h1 : p ∉ st.locked) :
    ((createEmpty p) st).2 = none ∧
    ((createEmpty p) st).1.read p = some "" ∧
    ((temp_file p region) st).1.read p = none := by
  refine ⟨?_, ?_, temp_file_read_none p region st⟩
  · rw [createEmpty_ok p st h1]
  · rw [createEmpty_ok p st h1]
    simp [St.read, getFile_setFile]

/-- Witness for C10: `"t"` holds `"secret"`, which is lost. -/
theorem C10_witness :
    ((createEmpty "t") st_t_secret).2 = none ∧
    ((createEmpty "t") st_t_secret).1.read "t" = some "" ∧
    ((temp_file "t" (regionMark 3)) st_t_secret).1.read "t" = none :=
  C10_temp_file_truncates_preexisting "t" "secret" (regionMark 3) st_t_secret
    (by decide) (by decide)

/-- C3: when the static-site build command exits non-zero during the
`mkdocs` task, the command's error propagates out of the task and
`docs/index.md` is restored to the exact content `c` it had before the
task started. -/
theorem C3_mkdocs_failure_atomic (ok : String → Bool) (st : St) (c r : String)
    (h1 : st.read index_path = some c) (h2 : st.read "README.md" = some r)
    (h3 : index_path ∉ st.locked) (h4 : index_backup_path ∉ st.locked)
    (h5 : ok "mkdocs build" = false) :
    (mkdocs ok false st).2 = some (Err.cmdFailed "mkdocs build") ∧
    (mkdocs ok false st).1.read index_path = some c := by
  have hm := mkdocs_run ok false st c r h1 h2 h3 h4
  refine ⟨?_, hm.1⟩
  have h6 := hm.2.2.2.2.2
  have hcmd : ("mkdocs build" ++ (if false then " --clean" else "") : String) =
      "mkdocs build" := rfl
  rw [hcmd] at h6
  rw [h6, h5]
  simp

/-- Witness for C3 on the documentation scenario, with every external
command failing. -/
theorem C3_witness :
    (mkdocs (fun _ => false) false st_docs).2 = some (Err.cmdFailed "mkdocs build") ∧
    (mkdocs (fun _ => false) false st_docs).1.read index_path = some "old" :=
  C3_mkdocs_failure_atomic (fun _ => false) st_docs "old" "new"
    (by decide) (by decide) (by decide) (by decide) rfl

/-- C7: a run of the `site` task performs, in order: the backup-guard
entry actions, the index overwrite, the static-site build command WITH the
clean flag (`mkdocs build --clean`), the guard's restore and backup
removal, and then the API-reference build (`lein codox`) — both commands
are attempted, the clean-flag build strictly before the API build. -/
theorem C7_site_order (ok : String → Bool) (st : St) (c r : String)
    (h1 : st.read index_path = some c) (h2 : st.read "README.md" = some r)
    (h3 : index_path ∉ st.locked) (h4 : index_backup_path ∉ st.locked)
    (h5 : ok "mkdocs build --clean" = true) :
    (site ok st).1.trace = st.trace ++
      [Ev.created index_backup_path, Ev.copied index_path index_backup_path,
       Ev.copied "README.md" index_path, Ev.ran "mkdocs build --clean",
       Ev.copied index_backup_path index_path, Ev.removed index_backup_path,
       Ev.ran "lein codox"] := by
  have hm := mkdocs_run ok true st c r h1 h2 h3 h4
  have hcmd : ("mkdocs build" ++ (if true then " --clean" else "") : String) =
      "mkdocs build --clean" := rfl
  have herr : (mkdocs ok true st).2 = none := by
    have h6 := hm.2.2.2.2.2
    rw [hcmd] at h6
    rw [h6, h5]
    simp
  have htr : (mkdocs ok true st).1.trace = st.trace ++
      [Ev.created index_backup_path, Ev.copied index_path index_backup_path,
       Ev.copied "README.md" index_path, Ev.ran "mkdocs build --clean",
       Ev.copied index_backup_path index_path, Ev.removed index_backup_path] := by
    have h7 := hm.2.2.2.2.1
    rw [hcmd] at h7
    exact h7
  have hsite : site ok st = api ok (mkdocs ok true st).1 := by
    refine seqM_ok _ _ _ _ ?_
    rw [← herr]
  have hlein : ("lein " ++ "codox" : String) = "lein codox" := rfl
  rw [hsite]
  show (run ok ("lein " ++ "codox") (mkdocs ok true st).1).1.trace = _
  rw [run_eq]
  simp [htr, hlein]

/-- Witness for C7 on the documentation scenario, with every external
command succeeding. -/
theorem C7_witness :
    (site (fun _ => true) st_docs).1.trace = st_docs.trace ++
      [Ev.created index_backup_path, Ev.copied index_path index_backup_path,
       Ev.copied "README.md" index_path, Ev.ran "mkdocs build --clean",
       Ev.copied index_backup_path index_path, Ev.removed index_backup_path,
       Ev.ran "lein codox"] :=
  C7_site_order (fun _ => true) st_docs "old" "new"
    (by decide) (by decide) (by decide) (by decide) rfl

/-- C8 counterexample: the backup file used by the `mkdocs` task lives at
`index_backup_path = "index.md_original"`, whose directory (the working
directory, `""`) differs from the directory of `index_path`
(`"docs"`): the backup file is NOT a sibling of `docs/index.md`. -/
theorem C8_counterexample :
    ¬ (dirname index_backup_path = dirname index_path) := by decide

/-- C8 (amended): the backup file created and deleted by the
"build site pages" operation is at the fixed relative path
`"index.md_original"`, which resolves in the process working directory —
the parent of `docs/` — and not in the directory of `docs/index.md`; a
successful run creates it and removes it, leaving it absent. -/
theorem C8_backup_location_amended :
    index_backup_path = "index.md_original" ∧
    index_path = "docs/index.md" ∧
    dirname index_path = "docs" ∧
    dirname index_backup_path = "" ∧
    dirname index_backup_path ≠ dirname index_path ∧
    (mkdocs (fun _ => true) false st_docs).1.trace =
      [Ev.created index_backup_path, Ev.copied index_path index_backup_path,
       Ev.copied "README.md" index_path, Ev.ran "mkdocs build",
       Ev.copied index_backup_path index_path, Ev.removed index_backup_path] ∧
    (mkdocs (fun _ => true) false st_docs).1.read index_backup_path = none := by
  decide

/-- C9: running the `mkdocs` task twice in sequence, both runs
succeeding (the build command exits zero), leaves `docs/index.md` with
exactly its pre-build content `c` after the first run and again after the
second run. -/
theorem C9_mkdocs_idempotent (ok : String → Bool) (st : St) (c r : String)
    (h1 : st.read index_path = some c) (h2 : st.read "README.md" = some r)
    (h3 : index_path ∉ st.locked) (h4 : index_backup_path ∉ st.locked)
    (h5 : ok "mkdocs build" = true) :
    (mkdocs ok false st).2 = none ∧
    (mkdocs ok false st).1.read index_path = some c ∧
    (mkdocs ok false ((mkdocs ok false st).1)).2 = none ∧
    (mkdocs ok false ((mkdocs ok false st).1)).1.read index_path = some c := by
  have hcmd : ("mkdocs build" ++ (if false then " --clean" else "") : String) =
      "mkdocs build" := rfl
  have hm1 := mkdocs_run ok false st c r h1 h2 h3 h4
  have hm2 := mkdocs_run ok false ((mkdocs ok false st).1) c r hm1.1 hm1.2.1
    (by rw [hm1.2.2.2.1]; exact h3) (by rw [hm1.2.2.2.1]; exact h4)
  have herr1 : (mkdocs ok false st).2 = none := by
    have h6 := hm1.2.2.2.2.2
    rw [hcmd] at h6
    rw [h6, h5]
    simp
  have herr2 : (mkdocs ok false ((mkdocs ok false st).1)).2 = none := by
    have h6 := hm2.2.2.2.2.2
    rw [hcmd] at h6
    rw [h6, h5]
    simp
  exact ⟨herr1, hm1.1, herr2, hm2.1⟩

/-- Witness for C9 on the documentation scenario, with every external
command succeeding: the index reads `"old"` after each of the two runs. -/
theorem C9_witness :
    (mkdocs (fun _ => true) false st_docs).2 = none ∧
    (mkdocs (fun _ => true) false st_docs).1.read index_path = some "old" ∧
    (mkdocs (fun _ => true) false ((mkdocs (fun _ => true) false st_docs).1)).2 = none ∧
    (mkdocs (fun _ => true) false
      ((mkdocs (fun _ => true) false st_docs).1)).1.read index_path = some "old" :=
  C9_mkdocs_idempotent (fun _ => true) st_docs "old" "new"
    (by decide) (by decide) (by decide) (by decide) rfl

end Byplay
